import Mathlib

/-!
Shallow embedding of the order-taking backend (picnic-kitchen).

The embedding models the cook-resolution policy, the order upsert policy,
the external sync forwarder, and the finalization workflow, as implemented
in `src/main.py`, `src/app/database.py`, `src/app/external_api.py` and the
validation layer of `src/app/models.py`.

Modelling conventions:
* The relational store (Supabase tables `daily_orders`, `external_sync_log`,
  `dishes`, `cooks`) is an explicit `Store` value; each database helper of
  `app/database.py` becomes a pure function on it.  Row ids are allocated
  from `Store.next_id`; inserts append to the table lists.
* Dates are day numbers (`Nat`); Python strings carrying dates compare by
  equality only, which the day-number model preserves.
* Python `None` becomes `Option.none`; Python truthiness tests on optional
  strings (`if request.assigned_cook_id:`) are the `truthy` function, which
  is false for `none` and for the empty string.
* The single outbound HTTP POST of `ExternalAPIClient.send_order` is
  modelled by consuming one `AttemptResult` value describing what the wire
  did (a response with a status code and body, a timeout, a transport
  error, or any other exception); the classification logic downstream of
  that point is translated directly from the source.
* Pydantic request validation (`app/models.py`) becomes explicit `valid`
  predicates; the `_api` wrappers reject invalid requests with the
  framework's 422 before the handler body runs, as FastAPI does.
-/

namespace PicnicKitchen

/-- A row of the `cooks` table (the fields the workflow reads). -/
structure Cook where
  id : String
  name : String
deriving DecidableEq, Repr

/-- A row of the `dishes` table (the fields the workflow reads).
`default_cook_id` is nullable in the schema. -/
structure Dish where
  id : String
  name : String
  category : Option String := none
  preparation_time : Option Int := none
  default_cook_id : Option String := none
deriving DecidableEq, Repr

/-- A row of the `daily_orders` table. -/
structure OrderLine where
  id : Nat
  order_date : Nat
  dish_id : String
  assigned_cook_id : String
  quantity : Int
  status : String
  notes : Option String
deriving DecidableEq, Repr

/-- One item of the payload forwarded to the partner system
(`app/models.py`, `ExternalOrderItem`). -/
structure ExternalOrderItem where
  dish_name : String
  quantity : Int
  cook_name : String
  preparation_time : Option Int := none
  notes : Option String := none
deriving DecidableEq, Repr

/-- The payload forwarded to the partner system
(`app/models.py`, `ExternalOrderPayload`). -/
structure ExternalOrderPayload where
  order_date : String
  total_dishes : Int
  items : List ExternalOrderItem
  timestamp : String
deriving DecidableEq, Repr

/-- A response body as stored in the sync log: `jsonOf t` stands for the
value `response.json()` parsed from body text `t` (success branch), `text t`
for the raw `response.text` kept on an HTTP error. -/
inductive ResponseData where
  | jsonOf (bodyText : String)
  | text (value : String)
deriving DecidableEq, Repr

/-- The dictionary returned by `ExternalAPIClient.send_order`.  Keys that a
given branch of the source does not set are `none` / `false`, matching
`dict.get` on the Python side. -/
structure SyncResult where
  success : Bool
  status_code : Option Nat := none
  response : Option ResponseData := none
  message : Option String := none
  error : Option String := none
  error_type : Option String := none
  skipped : Bool := false
deriving DecidableEq, Repr

/-- A row of the `external_sync_log` table. -/
structure SyncLogEntry where
  order_id : Nat
  sync_status : String
  request_payload : ExternalOrderPayload
  response_payload : Option ResponseData
  error_message : Option String
deriving DecidableEq, Repr

/-- The relational store: the four tables the workflow touches, plus the id
counter used for inserted `daily_orders` rows. -/
structure Store where
  cooks : List Cook := []
  dishes : List Dish := []
  daily_orders : List OrderLine := []
  sync_log : List SyncLogEntry := []
  next_id : Nat := 0
deriving DecidableEq, Repr

/-- Python truthiness of an optional string: `None` and `""` are falsy. -/
def truthy : Option String → Bool
  | none => false
  | some s => !(s == "")

/-- Errors surfaced to HTTP callers (`HTTPException(status_code, detail)`). -/
inductive ApiError where
  | httpError (statusCode : Nat) (detail : String)
deriving DecidableEq, Repr

/-! ## Database helpers (`src/app/database.py`) -/

/-- `get_cook_by_id`: `select('*').eq('id', cook_id).single()`; `.single()`
yields a row only when exactly one row matches. -/
def get_cook_by_id (s : Store) (cook_id : String) : Option Cook :=
  match s.cooks.filter (fun c => c.id == cook_id) with
  | [c] => some c
  | _ => none

/-- `get_dish_by_id`: `select(..).eq('id', dish_id).single()`. -/
def get_dish_by_id (s : Store) (dish_id : String) : Option Dish :=
  match s.dishes.filter (fun d => d.id == dish_id) with
  | [d] => some d
  | _ => none

/-- `create_daily_order`: inserts a row into `daily_orders` and returns the
created row (the store assigns the id). -/
def create_daily_order (s : Store) (order_date : Nat) (dish_id : String)
    (assigned_cook_id : String) (quantity : Int) (status : String)
    (notes : Option String) : Store × OrderLine :=
  let line : OrderLine :=
    { id := s.next_id, order_date := order_date, dish_id := dish_id,
      assigned_cook_id := assigned_cook_id, quantity := quantity,
      status := status, notes := notes }
  ({ s with daily_orders := s.daily_orders ++ [line], next_id := s.next_id + 1 }, line)

/-- `log_external_sync`: appends a row to `external_sync_log` (write
failures are swallowed in the source; the store model persists reliably). -/
def log_external_sync (s : Store) (entry : SyncLogEntry) : Store :=
  { s with sync_log := s.sync_log ++ [entry] }

/-- `get_today_orders`: `select(..).eq('order_date', order_date)` — every
line of the date, with no status filter. -/
def get_today_orders (s : Store) (order_date : Nat) : List OrderLine :=
  s.daily_orders.filter (fun l => l.order_date == order_date)

/-- The fields an `update` on `daily_orders` may set; a key that is absent
from the Python dict is `none` (the column keeps its value). -/
structure UpdateData where
  quantity : Option Int := none
  notes : Option (Option String) := none
  assigned_cook_id : Option String := none
  status : Option String := none
deriving DecidableEq, Repr

/-- Application of an `update` dict to one row. -/
def applyUpdate (u : UpdateData) (l : OrderLine) : OrderLine :=
  { l with
    quantity := u.quantity.getD l.quantity,
    notes := u.notes.getD l.notes,
    assigned_cook_id := u.assigned_cook_id.getD l.assigned_cook_id,
    status := u.status.getD l.status }

/-- `update_order_item`: `update(update_data).eq('id', order_id)`; returns
the first updated row, or `none` when no row matched. -/
def update_order_item (s : Store) (order_id : Nat) (u : UpdateData) :
    Store × Option OrderLine :=
  let updated := s.daily_orders.map (fun l => if l.id == order_id then applyUpdate u l else l)
  ({ s with daily_orders := updated },
   (updated.filter (fun l => l.id == order_id)).head?)

/-- The upsert key test of `upsert_daily_order`:
`.eq('order_date', ..).eq('dish_id', ..)` — note: no status filter. -/
def keyMatch (order_date : Nat) (dish_id : String) (l : OrderLine) : Bool :=
  l.order_date == order_date && l.dish_id == dish_id

/-- `upsert_daily_order`: if a line for (order_date, dish_id) exists, add
the requested quantity to the first such line and replace its notes;
otherwise insert a new line. -/
def upsert_daily_order (s : Store) (order_date : Nat) (dish_id : String)
    (assigned_cook_id : String) (quantity : Int) (status : String)
    (notes : Option String) : Store × Option OrderLine :=
  match s.daily_orders.filter (keyMatch order_date dish_id) with
  | [] =>
    let (s', line) := create_daily_order s order_date dish_id assigned_cook_id quantity status notes
    (s', some line)
  | e :: _ =>
    update_order_item s e.id { quantity := some (e.quantity + quantity), notes := some notes }

/-! ## External sync forwarder (`src/app/external_api.py`) -/

/-- Client configuration: `settings.external_api_url` defaults to the empty
string when unset, `settings.external_api_key` to `None`. -/
structure ClientConfig where
  base_url : String := ""
  api_key : Option String := none
deriving DecidableEq, Repr

/-- `self.timeout = 30.0`: the bounded wait of the single outbound call,
in seconds. -/
def sendTimeoutSeconds : Nat := 30

/-- What the single outbound `client.post` did, as observed inside the
`try` block of `send_order`:
* `response status body bodyParses`: a response arrived; `bodyParses`
  records whether `response.json()` succeeds on the (non-empty) body;
* `timeoutExc`: `httpx.TimeoutException`;
* `requestExc`: `httpx.RequestError` (transport failure);
* `otherExc`: any other exception raised during the attempt. -/
inductive AttemptResult where
  | response (statusCode : Nat) (body : String) (bodyParses : Bool)
  | timeoutExc
  | requestExc (msg : String)
  | otherExc (msg : String)
deriving DecidableEq, Repr

/-- `ExternalAPIClient.send_order`, downstream of the wire: classifies one
attempt into the returned result dictionary.  `raise_for_status` raises for
every non-2xx status; a 2xx response with a non-empty body that fails to
parse as JSON raises inside the `try` and lands in the generic `except
Exception` branch (error type `unknown`). -/
def send_order (cfg : ClientConfig) (payload : ExternalOrderPayload)
    (attempt : AttemptResult) : SyncResult :=
  if cfg.base_url == "" then
    { success := false, error := some "EXTERNAL_API_URL לא הוגדר", skipped := true }
  else
    match attempt with
    | .response status body bodyParses =>
      if 200 ≤ status ∧ status ≤ 299 then
        if body == "" then
          { success := true, status_code := some status, response := none,
            message := some "ההזמנה נשלחה בהצלחה" }
        else if bodyParses then
          { success := true, status_code := some status,
            response := some (.jsonOf body),
            message := some "ההזמנה נשלחה בהצלחה" }
        else
          { success := false,
            error := some "שגיאה בלתי צפויה: invalid JSON body",
            error_type := some "unknown" }
      else
        { success := false,
          error := some ("השרת החיצוני החזיר שגיאה: " ++ toString status),
          status_code := some status, response := some (.text body),
          error_type := some "http_error" }
    | .timeoutExc =>
      { success := false, error := some "תם הזמן הקצוב לתשובה מהשרת החיצוני",
        error_type := some "timeout" }
    | .requestExc msg =>
      { success := false, error := some ("שגיאה בשליחה לשרת חיצוני: " ++ msg),
        error_type := some "connection_error" }
    | .otherExc msg =>
      { success := false, error := some ("שגיאה בלתי צפויה: " ++ msg),
        error_type := some "unknown" }

/-- Pydantic validation of one `ExternalOrderItem` (`quantity ≥ 1`). -/
def ExternalOrderItem.valid (i : ExternalOrderItem) : Bool :=
  decide (1 ≤ i.quantity)

/-- Pydantic validation of `ExternalOrderPayload` (`total_dishes ≥ 1`,
`items` non-empty, each item quantity ≥ 1); a violation raises
`ValidationError` when the payload object is built, before any send. -/
def ExternalOrderPayload.valid (p : ExternalOrderPayload) : Bool :=
  decide (1 ≤ p.total_dishes) && !p.items.isEmpty && p.items.all ExternalOrderItem.valid

/-! ## Request models and validation (`src/app/models.py`) -/

/-- `notes: Optional[str] = Field(None, max_length=500)`. -/
def notesOk : Option String → Bool
  | none => true
  | some n => decide (n.length ≤ 500)

/-- One item of a `/submit-order` request (`OrderItemCreate`);
`assigned_cook_id` is an optional UUID, so mere presence makes the Python
truthiness test succeed. -/
structure OrderItemCreate where
  dish_id : String
  quantity : Int
  assigned_cook_id : Option String := none
  notes : Option String := none
deriving DecidableEq, Repr

/-- Pydantic validation of `OrderItemCreate`: the field bounds
`ge=1, le=500` together with the custom `validate_quantity` validator
(positive and at most 500), plus the notes length bound. -/
def OrderItemCreate.valid (i : OrderItemCreate) : Bool :=
  decide (1 ≤ i.quantity) && decide (i.quantity ≤ 500) && notesOk i.notes

/-- A `/submit-order` request body (`OrderCreate`). -/
structure OrderCreate where
  order_date : Nat
  items : List OrderItemCreate
deriving DecidableEq, Repr

/-- Pydantic validation of `OrderCreate`: at least one item
(`min_length=1` and `validate_items_not_empty`), the order date not before
today (`validate_order_date`), every item valid. -/
def OrderCreate.valid (today : Nat) (o : OrderCreate) : Bool :=
  !o.items.isEmpty && decide (today ≤ o.order_date) && o.items.all OrderItemCreate.valid

/-- An `/add-to-order` request body (`AddToOrderRequest`); its
`order_date` is a plain string field, and `assigned_cook_id` an optional
plain string. -/
structure AddToOrderRequest where
  order_date : Nat
  dish_id : String
  quantity : Int
  unit : String := "יח׳"
  notes : Option String := none
  assigned_cook_id : Option String := none
deriving DecidableEq, Repr

/-- Pydantic validation of `AddToOrderRequest`: `quantity` in `[1, 500]`
and the notes length bound.  The `order_date` string is not validated
against today. -/
def AddToOrderRequest.valid (r : AddToOrderRequest) : Bool :=
  decide (1 ≤ r.quantity) && decide (r.quantity ≤ 500) && notesOk r.notes

/-! ## Handlers (`src/main.py`) -/

/-- The notes string built by `add_to_order`:
`f"{request.notes or ''}\nיחידה: {request.unit}".strip()`. -/
def mkAddNotes (notes : Option String) (unit : String) : String :=
  ((notes.getD "") ++ "\n" ++ "יחידה: " ++ unit).trim

/-- `POST /add-to-order` handler body: fetch the dish, resolve the cook
(explicit id if truthy, else the dish's default if truthy, else reject with
400), then upsert the line with status `pending`. -/
def add_to_order (s : Store) (req : AddToOrderRequest) :
    Store × Except ApiError (Option OrderLine) :=
  match get_dish_by_id s req.dish_id with
  | none => (s, .error (.httpError 404 ("מנה לא נמצאה: " ++ req.dish_id)))
  | some dish =>
    if truthy req.assigned_cook_id then
      let (s', line) := upsert_daily_order s req.order_date req.dish_id
        (req.assigned_cook_id.getD "") req.quantity "pending"
        (some (mkAddNotes req.notes req.unit))
      (s', .ok line)
    else if truthy dish.default_cook_id then
      let (s', line) := upsert_daily_order s req.order_date req.dish_id
        (dish.default_cook_id.getD "") req.quantity "pending"
        (some (mkAddNotes req.notes req.unit))
      (s', .ok line)
    else
      (s, .error (.httpError 400 ("למנה " ++ dish.name ++ " אין טבח ברירת מחדל")))

/-- FastAPI/pydantic wrapper: an invalid body is rejected with 422 before
the handler body runs. -/
def add_to_order_api (s : Store) (req : AddToOrderRequest) :
    Store × Except ApiError (Option OrderLine) :=
  if req.valid then add_to_order s req
  else (s, .error (.httpError 422 "Unprocessable Entity"))

/-- `PUT /order-item/{order_id}` handler body: collect the supplied fields
(`quantity`/`notes` when not `None`, `assigned_cook_id` when truthy) into
an update dict, reject an empty dict with 400, apply the update, 404 when
no row matched.  No bound is checked on `quantity`. -/
def update_item (s : Store) (order_id : Nat) (quantity : Option Int)
    (notes : Option String) (assigned_cook_id : Option String) :
    Store × Except ApiError OrderLine :=
  if quantity.isNone && notes.isNone && !(truthy assigned_cook_id) then
    (s, .error (.httpError 400 "לא סופק שום שדה לעדכון"))
  else
    let u : UpdateData :=
      { quantity := quantity, notes := notes.map some,
        assigned_cook_id := if truthy assigned_cook_id then assigned_cook_id else none }
    match update_order_item s order_id u with
    | (s', some l) => (s', .ok l)
    | (s', none) =>
      (s', .error (.httpError 404 ("פריט " ++ toString order_id ++ " לא נמצא")))

/-- Name of a cook row looked up through a foreign-key join, with the
source's `'לא ידוע'` fallback for a missing join. -/
def cookNameOf (s : Store) (cook_id : String) : String :=
  ((s.cooks.find? (fun c => c.id == cook_id)).map (fun c => c.name)).getD "לא ידוע"

/-- Cook resolution inside `submit_order`: an explicit id is used verbatim
but must reference an existing cook (404 otherwise); else the dish's
default (400 when the dish has none).  Returns the id and display name. -/
def resolveSubmitCook (s : Store) (dish : Dish) (item : OrderItemCreate) :
    Except ApiError (String × String) :=
  match item.assigned_cook_id with
  | some cid =>
    match get_cook_by_id s cid with
    | some cook => .ok (cid, cook.name)
    | none => .error (.httpError 404 ("טבח לא נמצא: " ++ cid))
  | none =>
    if truthy dish.default_cook_id then
      let did := dish.default_cook_id.getD ""
      .ok (did, cookNameOf s did)
    else
      .error (.httpError 400 ("למנה " ++ dish.name ++ " אין טבח ברירת מחדל, יש לבחור טבח ידנית"))

/-- The per-item loop of `submit_order`: fetch the dish, resolve the cook,
insert a `pending` line, build the forwarded item; an exception aborts the
loop but rows already inserted stay (no rollback). -/
def processItems (d : Nat) :
    Store → List OrderItemCreate →
    Store × Except ApiError (List OrderLine × List ExternalOrderItem)
  | s, [] => (s, .ok ([], []))
  | s, item :: rest =>
    match get_dish_by_id s item.dish_id with
    | none => (s, .error (.httpError 404 ("מנה לא נמצאה: " ++ item.dish_id)))
    | some dish =>
      match resolveSubmitCook s dish item with
      | .error e => (s, .error e)
      | .ok (cid, cname) =>
        let (s1, line) := create_daily_order s d item.dish_id cid item.quantity "pending" item.notes
        let extItem : ExternalOrderItem :=
          { dish_name := dish.name, quantity := item.quantity, cook_name := cname,
            preparation_time := dish.preparation_time, notes := item.notes }
        match processItems d s1 rest with
        | (s2, .error e) => (s2, .error e)
        | (s2, .ok (ls, es)) => (s2, .ok (line :: ls, extItem :: es))

/-- The sync-log row written once per order line after a forwarding
attempt (shared by `submit_order` and `finalize_order`). -/
def mkLogEntry (o : OrderLine) (payload : ExternalOrderPayload)
    (sync : SyncResult) : SyncLogEntry :=
  { order_id := o.id,
    sync_status := if sync.success then "success" else "failed",
    request_payload := payload,
    response_payload := sync.response,
    error_message := sync.error }

/-- The per-line logging loop of `submit_order` (statuses are not touched
there). -/
def logLoop (payload : ExternalOrderPayload) (sync : SyncResult) :
    List OrderLine → Store → Store
  | [], st => st
  | o :: rest, st => logLoop payload sync rest (log_external_sync st (mkLogEntry o payload sync))

/-- The success envelope data of `submit_order` / `finalize_order`. -/
structure OrderSyncData where
  order_date : Nat
  total_dishes : Int
  items_count : Nat
  external_sync : Bool
  external_error : Option String
deriving DecidableEq, Repr

/-- `POST /submit-order` handler body: process every item, build the
forwarder payload, send once, append one sync-log row per created line,
and report the outcome in the response body (HTTP status stays 201 even
when forwarding failed). -/
def submit_order (cfg : ClientConfig) (s : Store) (o : OrderCreate)
    (now : String) (attempt : AttemptResult) :
    Store × Except ApiError OrderSyncData :=
  match processItems o.order_date s o.items with
  | (s', .error e) => (s', .error e)
  | (s', .ok (created, extItems)) =>
    let total : Int := o.items.foldl (fun acc it => acc + it.quantity) 0
    let payload : ExternalOrderPayload :=
      { order_date := toString o.order_date, total_dishes := total,
        items := extItems, timestamp := now }
    if payload.valid then
      let sync := send_order cfg payload attempt
      let s'' := logLoop payload sync created s'
      (s'', .ok { order_date := o.order_date, total_dishes := total,
                  items_count := created.length,
                  external_sync := sync.success,
                  external_error := if sync.success then none else sync.error })
    else
      (s', .error (.httpError 500 "שגיאה בעיבוד ההזמנה"))

/-- FastAPI/pydantic wrapper for `/submit-order` (422 on invalid body). -/
def submit_order_api (cfg : ClientConfig) (today : Nat) (s : Store)
    (o : OrderCreate) (now : String) (attempt : AttemptResult) :
    Store × Except ApiError OrderSyncData :=
  if o.valid today then submit_order cfg s o now attempt
  else (s, .error (.httpError 422 "Unprocessable Entity"))

/-- The forwarded item built by `finalize_order` from a fetched line.  The
`get_today_orders` join selects only `id, name, category` of the dish, so
`dish.get('preparation_time')` is always absent there and the forwarded
preparation time is `None`. -/
def externalItemOf (s : Store) (o : OrderLine) : ExternalOrderItem :=
  { dish_name := ((s.dishes.find? (fun d => d.id == o.dish_id)).map (fun d => d.name)).getD "לא ידוע",
    quantity := o.quantity,
    cook_name := cookNameOf s o.assigned_cook_id,
    preparation_time := none,
    notes := o.notes }

/-- The forwarder payload `finalize_order` builds for a date. -/
def finalizePayload (s : Store) (d : Nat) (now : String) : ExternalOrderPayload :=
  let orders := get_today_orders s d
  { order_date := toString d,
    total_dishes := orders.foldl (fun acc o => acc + o.quantity) 0,
    items := orders.map (externalItemOf s),
    timestamp := now }

/-- The per-line loop of `finalize_order`: set the line's status, then
append one sync-log row. -/
def finalizeLoop (payload : ExternalOrderPayload) (sync : SyncResult)
    (newStatus : String) : List OrderLine → Store → Store
  | [], st => st
  | o :: rest, st =>
    let (st1, _) := update_order_item st o.id { status := some newStatus }
    finalizeLoop payload sync newStatus rest (log_external_sync st1 (mkLogEntry o payload sync))

deriving instance DecidableEq for Except

/-- The outcome of one `POST /finalize-order` call: the resulting store,
the HTTP-level result, and whether an outbound call was attempted. -/
structure FinalizeOutcome where
  store : Store
  result : Except ApiError OrderSyncData
  callAttempted : Bool
deriving DecidableEq, Repr

/-- `POST /finalize-order` handler: fetch every line of the date (404 when
none), build one payload for the whole batch, invoke the forwarder once,
set every fetched line's status to `completed` on success and `cancelled`
otherwise, and append one sync-log row per line. -/
def finalize_order (cfg : ClientConfig) (s : Store) (order_date : Nat)
    (now : String) (attempt : AttemptResult) : FinalizeOutcome :=
  let orders := get_today_orders s order_date
  if orders.isEmpty then
    { store := s,
      result := .error (.httpError 404 ("לא נמצאו הזמנות ליום " ++ toString order_date)),
      callAttempted := false }
  else
    let payload := finalizePayload s order_date now
    if payload.valid then
      let sync := send_order cfg payload attempt
      let newStatus := if sync.success then "completed" else "cancelled"
      let s' := finalizeLoop payload sync newStatus orders s
      { store := s',
        result := .ok { order_date := order_date,
                        total_dishes := payload.total_dishes,
                        items_count := orders.length,
                        external_sync := sync.success,
                        external_error := if sync.success then none else sync.error },
        callAttempted := !(cfg.base_url == "") }
    else
      { store := s, result := .error (.httpError 500 "שגיאה בסגירת ההזמנה"),
        callAttempted := false }

/-! ## Helper definitions for stating the results -/

/-- Boolean membership of an id in a list of ids. -/
def idMem (i : Nat) : List Nat → Bool
  | [] => false
  | j :: rest => i == j || idMem i rest

/-- The effect of the finalize loop on one stored row: rows whose id is
among the fetched lines get the batch's new status, all other fields and
rows are untouched. -/
def stamped (ns : String) (ids : List Nat) (l : OrderLine) : OrderLine :=
  if idMem l.id ids then { l with status := ns } else l

/-! ## Concrete fixtures used by witnesses and counterexamples -/

/-- A configuration with a partner endpoint configured. -/
def cfgOn : ClientConfig := { base_url := "http://partner.example" }

/-- A configuration with no partner endpoint (`EXTERNAL_API_URL` unset,
hence the empty string). -/
def cfgOff : ClientConfig := { base_url := "" }

/-- Two cooks. -/
def cookOne : Cook := { id := "c1", name := "Cook One" }

def cookTwo : Cook := { id := "c2", name := "Cook Two" }

/-- A dish with a default cook. -/
def dishWithDefault : Dish :=
  { id := "d1", name := "Dish One", default_cook_id := some "c1" }

/-- A dish with no default cook. -/
def dishNoDefault : Dish := { id := "d2", name := "Dish Two" }

/-- A store with one pending line for date 7. -/
def storePending : Store :=
  { cooks := [cookOne, cookTwo], dishes := [dishWithDefault, dishNoDefault],
    daily_orders := [{ id := 0, order_date := 7, dish_id := "d1",
                       assigned_cook_id := "c1", quantity := 2,
                       status := "pending", notes := none }],
    sync_log := [], next_id := 1 }

/-- A store whose only line for date 7 is already `completed`. -/
def storeCompleted : Store :=
  { cooks := [cookOne, cookTwo], dishes := [dishWithDefault, dishNoDefault],
    daily_orders := [{ id := 0, order_date := 7, dish_id := "d1",
                       assigned_cook_id := "c1", quantity := 2,
                       status := "completed", notes := none }],
    sync_log := [], next_id := 1 }

/-- A store with no order lines at all. -/
def storeEmptyDay : Store :=
  { cooks := [cookOne, cookTwo], dishes := [dishWithDefault, dishNoDefault],
    daily_orders := [], sync_log := [], next_id := 0 }

/-- A sample forwarder payload. -/
def payloadSample : ExternalOrderPayload :=
  { order_date := "7", total_dishes := 2,
    items := [{ dish_name := "Dish One", quantity := 2, cook_name := "Cook One" }],
    timestamp := "t0" }

/-! ## Shared lemmas about the finalize loop -/

lemma finalizeLoop_daily (payload : ExternalOrderPayload) (sync : SyncResult) (ns : String) :
    ∀ (os : List OrderLine) (st : Store),
      (finalizeLoop payload sync ns os st).daily_orders
        = st.daily_orders.map (stamped ns (os.map (fun o => o.id)))
  | [], st => by
      have hf : stamped ns ([] : List Nat) = fun l => l :=
        funext fun l => by simp [stamped, idMem]
      rw [finalizeLoop, List.map_nil, hf, List.map_id']
  | o :: os, st => by
      rw [finalizeLoop, finalizeLoop_daily payload sync ns os]
      simp only [update_order_item, log_external_sync, List.map_map]
      apply List.map_congr_left
      intro l _
      by_cases h1 : (l.id == o.id) = true <;>
        simp [stamped, idMem, h1, applyUpdate, Function.comp]

lemma finalizeLoop_log (payload : ExternalOrderPayload) (sync : SyncResult) (ns : String) :
    ∀ (os : List OrderLine) (st : Store),
      (finalizeLoop payload sync ns os st).sync_log
        = st.sync_log ++ os.map (fun o => mkLogEntry o payload sync)
  | [], st => by simp [finalizeLoop]
  | o :: os, st => by
      rw [finalizeLoop, finalizeLoop_log payload sync ns os]
      simp [update_order_item, log_external_sync]

lemma idMem_of_mem : ∀ (os : List OrderLine) (l : OrderLine), l ∈ os →
    idMem l.id (os.map (fun o => o.id)) = true
  | o :: os, l, h => by
      rcases List.mem_cons.mp h with h | h
      · subst h; simp [idMem]
      · simp [idMem, idMem_of_mem os l h]

/-- Full characterization of a `finalize_order` run on a date that has
order lines and a valid payload: the store after the run, the response,
and whether the outbound call was attempted. -/
lemma finalize_store_eq (cfg : ClientConfig) (s : Store) (d : Nat) (now : String)
    (a : AttemptResult)
    (hne : (get_today_orders s d).isEmpty = false)
    (hp : (finalizePayload s d now).valid = true) :
    (finalize_order cfg s d now a).store.daily_orders
      = s.daily_orders.map
          (stamped (if (send_order cfg (finalizePayload s d now) a).success then "completed" else "cancelled")
                   ((get_today_orders s d).map (fun o => o.id)))
    ∧ (finalize_order cfg s d now a).store.sync_log
      = s.sync_log ++ (get_today_orders s d).map
          (fun o => mkLogEntry o (finalizePayload s d now) (send_order cfg (finalizePayload s d now) a))
    ∧ (finalize_order cfg s d now a).callAttempted = !(cfg.base_url == "")
    ∧ (finalize_order cfg s d now a).result
      = .ok { order_date := d,
              total_dishes := (finalizePayload s d now).total_dishes,
              items_count := (get_today_orders s d).length,
              external_sync := (send_order cfg (finalizePayload s d now) a).success,
              external_error :=
                if (send_order cfg (finalizePayload s d now) a).success then none
                else (send_order cfg (finalizePayload s d now) a).error } := by
  simp only [finalize_order, hne, hp, if_true]
  exact ⟨finalizeLoop_daily _ _ _ _ _, finalizeLoop_log _ _ _ _ _, rfl, rfl⟩

lemma map_untouched (os : List OrderLine) (i : Nat) (u : UpdateData)
    (h : ∀ l ∈ os, l.id ≠ i) :
    os.map (fun l => if l.id == i then applyUpdate u l else l) = os := by
  have hg : ∀ l ∈ os, (if l.id == i then applyUpdate u l else l) = l := by
    intro l hl
    simp [h l hl]
  rw [List.map_congr_left hg, List.map_id']

/-! ## Claims -/

/-- C8: for a date with zero order lines, `finalize_order` fails with the
NothingToFinalize condition, reported as HTTP 404, the store is unchanged
(no status update, no sync-log row), and no outbound call is attempted. -/
theorem finalize_empty_404_no_writes (cfg : ClientConfig) (s : Store) (d : Nat)
    (now : String) (a : AttemptResult)
    (h : get_today_orders s d = []) :
    finalize_order cfg s d now a
      = { store := s,
          result := .error (.httpError 404 ("לא נמצאו הזמנות ליום " ++ toString d)),
          callAttempted := false } := by
  simp [finalize_order, h]

/-- Witness for C8 at a concrete store with no lines for date 7. -/
theorem finalize_empty_404_no_writes_witness :
    get_today_orders storeEmptyDay 7 = []
    ∧ finalize_order cfgOn storeEmptyDay 7 "t0" .timeoutExc
      = { store := storeEmptyDay,
          result := .error (.httpError 404 ("לא נמצאו הזמנות ליום " ++ toString 7)),
          callAttempted := false } :=
  ⟨rfl, finalize_empty_404_no_writes cfgOn storeEmptyDay 7 "t0" .timeoutExc rfl⟩

/-- C1: for every `finalize_order` call on a date with at least one order
line (and whose forwarder invocation returns, which every classified
outcome does), every fetched line is re-stamped with the same new status —
`completed` iff the forwarder outcome is a success, `cancelled` otherwise
(`skipped`, `timeout`, `http_error`, `connection_error` and `unknown`
outcomes all have `success = false`, hence all degrade to `cancelled`) —
and exactly one sync-log row is appended per fetched line, recording
`success`/`failed`, the outbound payload, the inbound response and the
error message. -/
theorem finalize_uniform_status_and_per_line_log
    (cfg : ClientConfig) (s : Store) (d : Nat) (now : String) (a : AttemptResult)
    (hne : (get_today_orders s d).isEmpty = false)
    (hp : (finalizePayload s d now).valid = true) :
    (finalize_order cfg s d now a).store.daily_orders
      = s.daily_orders.map
          (stamped (if (send_order cfg (finalizePayload s d now) a).success then "completed" else "cancelled")
                   ((get_today_orders s d).map (fun o => o.id)))
    ∧ (finalize_order cfg s d now a).store.sync_log
      = s.sync_log ++ (get_today_orders s d).map
          (fun o =>
            ({ order_id := o.id,
               sync_status := if (send_order cfg (finalizePayload s d now) a).success then "success" else "failed",
               request_payload := finalizePayload s d now,
               response_payload := (send_order cfg (finalizePayload s d now) a).response,
               error_message := (send_order cfg (finalizePayload s d now) a).error } : SyncLogEntry))
    ∧ ∃ data, (finalize_order cfg s d now a).result = .ok data := by
  obtain ⟨h1, h2, _, h4⟩ := finalize_store_eq cfg s d now a hne hp
  exact ⟨h1, by simpa [mkLogEntry] using h2, ⟨_, h4⟩⟩

/-- Witness for C1: one pending line for date 7, a successful forwarder
outcome; the line becomes `completed` and one `success` log row appears. -/
theorem finalize_uniform_status_and_per_line_log_witness :
    ((finalize_order cfgOn storePending 7 "t0" (.response 200 "" true)).store.daily_orders.map
        (fun l => l.status) = ["completed"])
    ∧ ((finalize_order cfgOn storePending 7 "t0" (.response 200 "" true)).store.sync_log.map
        (fun e => e.sync_status) = ["success"]) := by
  have h := finalize_uniform_status_and_per_line_log cfgOn storePending 7 "t0"
    (.response 200 "" true) rfl rfl
  exact ⟨by rw [h.1]; rfl, by rw [h.2.1]; rfl⟩

/-- C6: with an endpoint configured, `send_order` consumes exactly one
attempt outcome (a single outbound call, 30-second bound, no retries) and
classifies it into exactly one of `success` (only for 2xx responses),
`http_error` (every non-2xx response, body retained), `timeout`,
`connection_error` or `unknown`; every outcome is returned as data — the
function is total, so nothing escapes its boundary. -/
theorem send_order_single_attempt_classification
    (cfg : ClientConfig) (payload : ExternalOrderPayload)
    (hc : cfg.base_url ≠ "") (a : AttemptResult) :
    sendTimeoutSeconds = 30
    ∧ (send_order cfg payload a).skipped = false
    ∧ (((send_order cfg payload a).success = true ∧ (send_order cfg payload a).error_type = none)
       ∨ ((send_order cfg payload a).success = false
          ∧ ((send_order cfg payload a).error_type = some "timeout"
             ∨ (send_order cfg payload a).error_type = some "http_error"
             ∨ (send_order cfg payload a).error_type = some "connection_error"
             ∨ (send_order cfg payload a).error_type = some "unknown")))
    ∧ (∀ st b p, a = .response st b p → 200 ≤ st → st ≤ 299 → (b = "" ∨ p = true) →
        (send_order cfg payload a).success = true ∧ (send_order cfg payload a).error_type = none)
    ∧ (∀ st b p, a = .response st b p → ¬(200 ≤ st ∧ st ≤ 299) →
        (send_order cfg payload a).success = false
        ∧ (send_order cfg payload a).error_type = some "http_error"
        ∧ (send_order cfg payload a).response = some (.text b)
        ∧ (send_order cfg payload a).status_code = some st)
    ∧ (a = .timeoutExc → (send_order cfg payload a).error_type = some "timeout")
    ∧ (∀ m, a = .requestExc m → (send_order cfg payload a).error_type = some "connection_error")
    ∧ (∀ m, a = .otherExc m → (send_order cfg payload a).error_type = some "unknown")
    ∧ ((send_order cfg payload a).success = true →
        ∃ st b p, a = .response st b p ∧ 200 ≤ st ∧ st ≤ 299) := by
  have hb : (cfg.base_url == "") = false := by simpa using hc
  cases a with
  | response st b p =>
    by_cases h2 : 200 ≤ st ∧ st ≤ 299
    · by_cases hbody : (b == "") = true
      · refine ⟨rfl, ?_, ?_, ?_, ?_, ?_, ?_, ?_, ?_⟩ <;>
          simp_all [send_order, hb, h2, hbody]
      · by_cases hp : p = true
        · refine ⟨rfl, ?_, ?_, ?_, ?_, ?_, ?_, ?_, ?_⟩ <;>
            simp_all [send_order, hb, h2, hbody, hp]
        · refine ⟨rfl, ?_, ?_, ?_, ?_, ?_, ?_, ?_, ?_⟩ <;>
            simp_all [send_order, hb, h2, hbody, hp]
    · have hs : send_order cfg payload (.response st b p)
          = { success := false,
              error := some ("השרת החיצוני החזיר שגיאה: " ++ toString st),
              status_code := some st, response := some (.text b),
              error_type := some "http_error" } := by
        simp only [send_order, hb, Bool.false_eq_true, if_false]
        rw [if_neg h2]
      refine ⟨rfl, ?_, ?_, ?_, ?_, ?_, ?_, ?_, ?_⟩ <;> simp_all [hs]
  | timeoutExc =>
    refine ⟨rfl, ?_, ?_, ?_, ?_, ?_, ?_, ?_, ?_⟩ <;> simp_all [send_order, hb]
  | requestExc m =>
    refine ⟨rfl, ?_, ?_, ?_, ?_, ?_, ?_, ?_, ?_⟩ <;> simp_all [send_order, hb]
  | otherExc m =>
    refine ⟨rfl, ?_, ?_, ?_, ?_, ?_, ?_, ?_, ?_⟩ <;> simp_all [send_order, hb]

/-- Witness for C6 at a concrete configured client, on a timeout. -/
theorem send_order_single_attempt_classification_witness :
    ("http://partner.example" : String) ≠ ""
    ∧ (send_order cfgOn payloadSample .timeoutExc).skipped = false
    ∧ (send_order cfgOn payloadSample .timeoutExc).success = false
    ∧ (send_order cfgOn payloadSample .timeoutExc).error_type = some "timeout" := by
  have h := send_order_single_attempt_classification cfgOn payloadSample
    (by decide) AttemptResult.timeoutExc
  exact ⟨by decide, h.2.1, by rfl, h.2.2.2.2.2.1 rfl⟩

/-- C2: two successive upserts to the same (order_date, dish_id) key, on a
store that has no line for that key yet (and whose row ids are below the
id counter), leave exactly one line for that key; its quantity is the sum
q1 + q2 of the two requested quantities (cumulative, never replacing) and
its notes are exactly the second request's notes, even when empty. -/
theorem upsert_same_key_accumulates
    (s : Store) (d : Nat) (dish c1 c2 : String) (q1 q2 : Int)
    (st1 st2 : String) (n1 n2 : Option String)
    (hkey : s.daily_orders.filter (keyMatch d dish) = [])
    (hwf : ∀ l ∈ s.daily_orders, l.id < s.next_id) :
    ((upsert_daily_order (upsert_daily_order s d dish c1 q1 st1 n1).1
        d dish c2 q2 st2 n2).1).daily_orders.filter (keyMatch d dish)
      = [{ id := s.next_id, order_date := d, dish_id := dish, assigned_cook_id := c1,
           quantity := q1 + q2, status := st1, notes := n2 }] := by
  have hL1 : keyMatch d dish
      { id := s.next_id, order_date := d, dish_id := dish, assigned_cook_id := c1,
        quantity := q1, status := st1, notes := n1 } = true := by
    simp [keyMatch]
  have h1 : upsert_daily_order s d dish c1 q1 st1 n1
      = ({ s with
            daily_orders := s.daily_orders ++
              [{ id := s.next_id, order_date := d, dish_id := dish,
                 assigned_cook_id := c1, quantity := q1, status := st1, notes := n1 }],
            next_id := s.next_id + 1 },
         some { id := s.next_id, order_date := d, dish_id := dish,
                assigned_cook_id := c1, quantity := q1, status := st1, notes := n1 }) := by
    simp only [upsert_daily_order, hkey, create_daily_order]
  rw [h1]
  have hf1 : (s.daily_orders ++
      [({ id := s.next_id, order_date := d, dish_id := dish, assigned_cook_id := c1,
          quantity := q1, status := st1, notes := n1 } : OrderLine)]).filter (keyMatch d dish)
      = [{ id := s.next_id, order_date := d, dish_id := dish, assigned_cook_id := c1,
           quantity := q1, status := st1, notes := n1 }] := by
    simp [List.filter_append, hkey, hL1]
  simp only [upsert_daily_order, hf1, update_order_item]
  rw [List.map_append, map_untouched s.daily_orders s.next_id _
    (fun l hl => Nat.ne_of_lt (hwf l hl))]
  simp [List.filter_append, hkey, applyUpdate, keyMatch]

/-- Witness for C2: two upserts of quantities 10 and 15 for (date 7, dish
d1) on a store with no line for that key; the single resulting line has
quantity 25 and the second request's notes. -/
theorem upsert_same_key_accumulates_witness :
    ((upsert_daily_order (upsert_daily_order storeEmptyDay 7 "d1" "c1" 10 "pending" (some "a")).1
        7 "d1" "c1" 15 "pending" (some "b")).1).daily_orders.filter (keyMatch 7 "d1")
      = [{ id := 0, order_date := 7, dish_id := "d1", assigned_cook_id := "c1",
           quantity := 25, status := "pending", notes := some "b" }] := by
  have h := upsert_same_key_accumulates storeEmptyDay 7 "d1" "c1" "c1" 10 15
    "pending" "pending" (some "a") (some "b") rfl (by intro l hl; simp [storeEmptyDay] at hl)
  simpa using h

/-- C10: when an upsert through `/add-to-order` takes the merge path
(a line for the key already exists), only the quantity and notes columns
are written: every row keeps its assigned cook and status — even though
the merging request carries an explicit cook id. -/
theorem merge_writes_only_quantity_and_notes
    (s : Store) (req : AddToOrderRequest) (dish : Dish) (c : String)
    (L : OrderLine) (rest : List OrderLine)
    (hdish : get_dish_by_id s req.dish_id = some dish)
    (hc : req.assigned_cook_id = some c) (hcne : c ≠ "")
    (hex : s.daily_orders.filter (keyMatch req.order_date req.dish_id) = L :: rest) :
    (add_to_order s req).1.daily_orders
      = s.daily_orders.map (fun l => if l.id == L.id then
          { l with quantity := L.quantity + req.quantity,
                   notes := some (mkAddNotes req.notes req.unit) } else l)
    ∧ (add_to_order s req).1.daily_orders.map (fun l => (l.assigned_cook_id, l.status))
      = s.daily_orders.map (fun l => (l.assigned_cook_id, l.status)) := by
  have ht : truthy req.assigned_cook_id = true := by
    simp [truthy, hc, hcne]
  constructor
  · simp only [add_to_order, hdish, ht, if_true, upsert_daily_order, hex,
      update_order_item, applyUpdate, Option.getD_some, Option.getD_none]
  · simp only [add_to_order, hdish, ht, if_true, upsert_daily_order, hex,
      update_order_item, applyUpdate, Option.getD_some, Option.getD_none, List.map_map]
    apply List.map_congr_left
    intro l _
    by_cases h1 : (l.id == L.id) = true <;> simp [Function.comp, h1]

/-- Witness for C10: merging with explicit cook c2 into a line assigned to
c1 adds the quantity and keeps cook c1 and the status. -/
theorem merge_writes_only_quantity_and_notes_witness :
    ((add_to_order storePending
        { order_date := 7, dish_id := "d1", quantity := 3,
          assigned_cook_id := some "c2" }).1.daily_orders.map
        (fun l => (l.id, l.assigned_cook_id, l.quantity, l.status)))
      = [(0, "c1", 5, "pending")] := by
  have h := merge_writes_only_quantity_and_notes storePending
    { order_date := 7, dish_id := "d1", quantity := 3, assigned_cook_id := some "c2" }
    dishWithDefault "c2"
    { id := 0, order_date := 7, dish_id := "d1", assigned_cook_id := "c1",
      quantity := 2, status := "pending", notes := none }
    [] rfl rfl (by decide) rfl
  rw [h.1]
  rfl

/-- The per-item loop of `submit_order`, on success: one line is created
per item, appended in order to `daily_orders`, and an item processed with
an explicit cook id yields a line assigned exactly that cook. -/
lemma processItems_ok (d : Nat) :
    ∀ (items : List OrderItemCreate) (s st : Store) (ls : List OrderLine)
      (es : List ExternalOrderItem),
      processItems d s items = (st, .ok (ls, es)) →
      ls.length = items.length
      ∧ st.daily_orders = s.daily_orders ++ ls
      ∧ (∀ pr ∈ items.zip ls, ∀ c, pr.1.assigned_cook_id = some c →
           pr.2.assigned_cook_id = c)
  | [], s, st, ls, es, h => by
      simp only [processItems, Prod.mk.injEq, Except.ok.injEq] at h
      obtain ⟨rfl, rfl, rfl⟩ := h
      simp
  | item :: items, s, st, ls, es, h => by
      rw [processItems] at h
      split at h
      · exact absurd h (by simp)
      · rename_i dish hd
        split at h
        · exact absurd h (by simp)
        · rename_i cid cname hr
          simp only [create_daily_order] at h
          split at h
          · exact absurd h (by simp)
          · rename_i s2 ls2 es2 hrec
            simp only [Prod.mk.injEq, Except.ok.injEq] at h
            obtain ⟨rfl, rfl, rfl⟩ := h
            obtain ⟨ih1, ih2, ih3⟩ := processItems_ok d items _ _ _ _ hrec
            refine ⟨by simp [ih1], ?_, ?_⟩
            · rw [ih2]; simp
            · intro pr2 hpr c hc
              rw [List.zip_cons_cons] at hpr
              rcases List.mem_cons.mp hpr with rfl | hpr2
              · have hc' : item.assigned_cook_id = some c := hc
                show cid = c
                simp only [resolveSubmitCook, hc'] at hr
                cases hcook : get_cook_by_id s c with
                | none => rw [hcook] at hr; exact absurd hr (by simp)
                | some cook =>
                  rw [hcook] at hr
                  simp only [Except.ok.injEq, Prod.mk.injEq] at hr
                  exact hr.1.symm
              · exact ih3 _ hpr2 c hc

/-- C3: an explicit cook id always wins over the dish's default.
Part 1: in `/add-to-order` (create path), the created line's cook is the
explicit id, for every dish, whatever its default.  Part 2: in
`/submit-order`, every item carrying an explicit cook id yields a line
assigned exactly that cook. -/
theorem explicit_cook_override_wins :
    (∀ (s : Store) (req : AddToOrderRequest) (dish : Dish) (c : String),
      get_dish_by_id s req.dish_id = some dish →
      req.assigned_cook_id = some c → c ≠ "" →
      s.daily_orders.filter (keyMatch req.order_date req.dish_id) = [] →
      ∃ L : OrderLine,
        (add_to_order s req).2 = .ok (some L)
        ∧ L.assigned_cook_id = c
        ∧ (add_to_order s req).1.daily_orders = s.daily_orders ++ [L])
    ∧ (∀ (d : Nat) (items : List OrderItemCreate) (s st : Store)
        (ls : List OrderLine) (es : List ExternalOrderItem),
      processItems d s items = (st, .ok (ls, es)) →
      ∀ pr ∈ items.zip ls, ∀ c, pr.1.assigned_cook_id = some c →
        pr.2.assigned_cook_id = c) := by
  constructor
  · intro s req dish c hdish hc hcne hempty
    have htc : truthy (some c) = true := by
      simp [truthy, hcne]
    refine ⟨{ id := s.next_id, order_date := req.order_date, dish_id := req.dish_id,
              assigned_cook_id := c, quantity := req.quantity, status := "pending",
              notes := some (mkAddNotes req.notes req.unit) }, ?_, rfl, ?_⟩ <;>
      simp only [add_to_order, hdish, hc, htc, if_true, upsert_daily_order, hempty,
        create_daily_order, Option.getD_some]
  · intro d items s st ls es h
    exact (processItems_ok d items s st ls es h).2.2

/-- Witness for C3: an explicit cook c2 overrides dish d1's default c1 on
the add-to-order create path, and on a one-item submit-order batch. -/
theorem explicit_cook_override_wins_witness :
    ((add_to_order storeEmptyDay
        { order_date := 7, dish_id := "d1", quantity := 4,
          assigned_cook_id := some "c2" }).1.daily_orders.map
        (fun l => l.assigned_cook_id) = ["c2"])
    ∧ (∀ pr ∈ ([({ dish_id := "d1", quantity := 4, assigned_cook_id := some "c2" }
            : OrderItemCreate)].zip
          [({ id := 0, order_date := 7, dish_id := "d1", assigned_cook_id := "c2",
              quantity := 4, status := "pending", notes := none } : OrderLine)]),
        ∀ c, pr.1.assigned_cook_id = some c → pr.2.assigned_cook_id = c) := by
  constructor
  · obtain ⟨L, _, hcook, hstore⟩ := explicit_cook_override_wins.1 storeEmptyDay
      { order_date := 7, dish_id := "d1", quantity := 4, assigned_cook_id := some "c2" }
      dishWithDefault "c2" rfl rfl (by decide) rfl
    rw [hstore]
    simp [storeEmptyDay, hcook]
  · exact explicit_cook_override_wins.2 7
      [{ dish_id := "d1", quantity := 4, assigned_cook_id := some "c2" }]
      storeEmptyDay
      { cooks := [cookOne, cookTwo], dishes := [dishWithDefault, dishNoDefault],
        daily_orders := [{ id := 0, order_date := 7, dish_id := "d1",
                           assigned_cook_id := "c2", quantity := 4,
                           status := "pending", notes := none }],
        sync_log := [], next_id := 1 }
      [{ id := 0, order_date := 7, dish_id := "d1", assigned_cook_id := "c2",
         quantity := 4, status := "pending", notes := none }]
      [{ dish_name := "Dish One", quantity := 4, cook_name := "Cook Two",
         preparation_time := none, notes := none }]
      rfl

/-- Counterexample for C5: with no endpoint configured the forwarder
outcome is flagged `skipped`, yet `finalize_order` handles it exactly like
a true forwarding failure — the pending line is cancelled and the sync-log
row records `failed`, precisely as for a transport error with an endpoint
configured.  The workflow does not treat `skipped` as "do not mark
failed". -/
theorem skipped_treated_as_failure :
    (send_order cfgOff payloadSample .timeoutExc).skipped = true
    ∧ ((finalize_order cfgOff storePending 7 "t0" .timeoutExc).store.daily_orders.map
        (fun l => l.status) = ["cancelled"])
    ∧ ((finalize_order cfgOff storePending 7 "t0" .timeoutExc).store.sync_log.map
        (fun e => e.sync_status) = ["failed"])
    ∧ (finalize_order cfgOff storePending 7 "t0" .timeoutExc).callAttempted = false
    ∧ ((finalize_order cfgOn storePending 7 "t0" (.requestExc "refused")).store.daily_orders.map
        (fun l => l.status) = ["cancelled"])
    ∧ ((finalize_order cfgOn storePending 7 "t0" (.requestExc "refused")).store.sync_log.map
        (fun e => e.sync_status) = ["failed"]) :=
  ⟨rfl, rfl, rfl, rfl, rfl, rfl⟩

/-- C5 (amended): with no endpoint configured, `send_order` returns an
outcome flagged `skipped` as data (it never raises), and no outbound call
is attempted; the finalize workflow, however, does not distinguish it from
a true failure: every line of the batch is cancelled and every sync-log
row records `failed`, with the skip reason as the error message. -/
theorem skipped_outcome_data_but_marked_failed
    (cfg : ClientConfig) (h0 : cfg.base_url = "") :
    (∀ payload a, send_order cfg payload a
        = { success := false, error := some "EXTERNAL_API_URL לא הוגדר", skipped := true })
    ∧ (∀ (s : Store) (d : Nat) (now : String) (a : AttemptResult),
        (get_today_orders s d).isEmpty = false →
        (finalizePayload s d now).valid = true →
        (finalize_order cfg s d now a).store.daily_orders
          = s.daily_orders.map (stamped "cancelled" ((get_today_orders s d).map (fun o => o.id)))
        ∧ (finalize_order cfg s d now a).store.sync_log
          = s.sync_log ++ (get_today_orders s d).map
              (fun o => ({ order_id := o.id, sync_status := "failed",
                           request_payload := finalizePayload s d now,
                           response_payload := none,
                           error_message := some "EXTERNAL_API_URL לא הוגדר" } : SyncLogEntry))
        ∧ (finalize_order cfg s d now a).callAttempted = false) := by
  have hb : (cfg.base_url == "") = true := by simp [h0]
  have hsend : ∀ payload a, send_order cfg payload a
      = { success := false, error := some "EXTERNAL_API_URL לא הוגדר", skipped := true } := by
    intro payload a
    simp [send_order, hb]
  refine ⟨hsend, ?_⟩
  intro s d now a hne hp
  obtain ⟨h1, h2, h3, _⟩ := finalize_store_eq cfg s d now a hne hp
  rw [hsend] at h1 h2
  refine ⟨by simpa using h1, ?_, by simp [h3, hb]⟩
  rw [h2]
  simp [mkLogEntry]

/-- Witness for the amended C5 at a concrete unconfigured client. -/
theorem skipped_outcome_data_but_marked_failed_witness :
    (send_order cfgOff payloadSample .timeoutExc).skipped = true
    ∧ ((finalize_order cfgOff storePending 7 "t0" .timeoutExc).store.daily_orders.map
        (fun l => l.status) = ["cancelled"]) := by
  have h := skipped_outcome_data_but_marked_failed cfgOff rfl
  constructor
  · rw [h.1 payloadSample .timeoutExc]
  · rw [(h.2 storePending 7 "t0" .timeoutExc rfl rfl).1]
    rfl

/-- Counterexample for C9: a line already in the terminal status
`completed` is re-stamped to `cancelled` by a later failing finalize of the
same date, and an upsert for the same (date, dish) key merges into the
finalized line (same id, quantity accumulated, no fresh line). -/
theorem finalized_line_restamped_and_merged :
    ((finalize_order cfgOn storeCompleted 7 "t0" .timeoutExc).store.daily_orders.map
        (fun l => l.status) = ["cancelled"])
    ∧ ((upsert_daily_order storeCompleted 7 "d1" "c2" 3 "pending" none).1.daily_orders.map
        (fun l => (l.id, l.quantity, l.status)) = [(0, 5, "completed")]) :=
  ⟨rfl, rfl⟩

/-- C9 (amended): terminal statuses are not protected.  `finalize_order`
re-stamps every line of the date uniformly regardless of its prior status
(so a completed line can move to cancelled by a later failing finalize),
and the upsert key lookup has no status filter, so a new order for the
same (date, dish) key after finalization merges into the finalized line —
same id, status and cook untouched — instead of producing a fresh line. -/
theorem terminal_status_not_protected_amended :
    (∀ (cfg : ClientConfig) (s : Store) (d : Nat) (now : String) (a : AttemptResult)
        (L : OrderLine),
      (get_today_orders s d).isEmpty = false →
      (finalizePayload s d now).valid = true →
      L ∈ s.daily_orders → L.order_date = d →
      { L with status := if (send_order cfg (finalizePayload s d now) a).success
                         then "completed" else "cancelled" }
        ∈ (finalize_order cfg s d now a).store.daily_orders)
    ∧ (∀ (s : Store) (d : Nat) (dish cook : String) (q : Int) (stq : String)
        (n : Option String) (L : OrderLine) (rest : List OrderLine),
      s.daily_orders.filter (keyMatch d dish) = L :: rest →
      (upsert_daily_order s d dish cook q stq n).1.daily_orders
        = s.daily_orders.map (fun l => if l.id == L.id then
            { l with quantity := L.quantity + q, notes := n } else l)
      ∧ (upsert_daily_order s d dish cook q stq n).1.daily_orders.length
        = s.daily_orders.length) := by
  constructor
  · intro cfg s d now a L hne hp hL hd
    obtain ⟨h1, _, _, _⟩ := finalize_store_eq cfg s d now a hne hp
    rw [h1]
    have hmem : L ∈ get_today_orders s d :=
      List.mem_filter.mpr ⟨hL, by simp [hd]⟩
    have hid : idMem L.id ((get_today_orders s d).map (fun o => o.id)) = true :=
      idMem_of_mem _ _ hmem
    have hst : stamped (if (send_order cfg (finalizePayload s d now) a).success
          then "completed" else "cancelled")
        ((get_today_orders s d).map (fun o => o.id)) L
        = { L with status := if (send_order cfg (finalizePayload s d now) a).success
                             then "completed" else "cancelled" } := by
      simp [stamped, hid]
    exact hst ▸ List.mem_map_of_mem _ hL
  · intro s d dish cook q stq n L rest hex
    constructor
    · simp only [upsert_daily_order, hex, update_order_item, applyUpdate,
        Option.getD_some, Option.getD_none]
    · simp only [upsert_daily_order, hex, update_order_item]
      simp

/-- Witness for the amended C9: the completed line of `storeCompleted` is
re-stamped to `cancelled` by a timed-out finalize, and the merge keeps the
line count at one. -/
theorem terminal_status_not_protected_amended_witness :
    (({ id := 0, order_date := 7, dish_id := "d1", assigned_cook_id := "c1",
        quantity := 2, status := "cancelled", notes := none } : OrderLine)
      ∈ (finalize_order cfgOn storeCompleted 7 "t0" .timeoutExc).store.daily_orders)
    ∧ ((upsert_daily_order storeCompleted 7 "d1" "c2" 3 "pending" none).1.daily_orders.length
        = storeCompleted.daily_orders.length) := by
  constructor
  · exact terminal_status_not_protected_amended.1 cfgOn storeCompleted 7 "t0" .timeoutExc
      { id := 0, order_date := 7, dish_id := "d1", assigned_cook_id := "c1",
        quantity := 2, status := "completed", notes := none }
      rfl rfl (by decide) rfl
  · exact (terminal_status_not_protected_amended.2 storeCompleted 7 "d1" "c2" 3 "pending" none
      { id := 0, order_date := 7, dish_id := "d1", assigned_cook_id := "c1",
        quantity := 2, status := "completed", notes := none } [] rfl).2

/-- Appending behaviour of the submit loop: once a front segment has been
processed successfully, the rest continues from the reached store; an
error in the rest leaves the front's insertions in place. -/
lemma processItems_append_ok (d : Nat) :
    ∀ (xs ys : List OrderItemCreate) (s s1 : Store)
      (ls : List OrderLine) (es : List ExternalOrderItem),
      processItems d s xs = (s1, .ok (ls, es)) →
      processItems d s (xs ++ ys)
        = (match processItems d s1 ys with
           | (s2, .error e) => (s2, .error e)
           | (s2, .ok (ls2, es2)) => (s2, .ok (ls ++ ls2, es ++ es2)))
  | [], ys, s, s1, ls, es, h => by
      simp only [processItems, Prod.mk.injEq, Except.ok.injEq] at h
      obtain ⟨rfl, rfl, rfl⟩ := h
      rw [List.nil_append]
      rcases hys : processItems d s ys with ⟨s2, r⟩
      cases r with
      | error e => simp
      | ok pr =>
        obtain ⟨ls2, es2⟩ := pr
        simp
  | x :: xs, ys, s, s1, ls, es, h => by
      rw [processItems] at h
      rw [List.cons_append, processItems]
      split at h
      · exact absurd h (by simp)
      · rename_i dish hd
        split at h
        · exact absurd h (by simp)
        · rename_i cid cname hr
          simp only [create_daily_order] at h
          split at h
          · exact absurd h (by simp)
          · rename_i s2 ls2 es2 hrec
            simp only [Prod.mk.injEq, Except.ok.injEq] at h
            obtain ⟨rfl, rfl, rfl⟩ := h
            simp only [hd, hr, create_daily_order]
            rw [processItems_append_ok d xs ys _ _ _ _ hrec]
            rcases hys : processItems d s2 ys with ⟨s3, r⟩
            cases r with
            | error e => simp
            | ok pr2 =>
              obtain ⟨ls3, es3⟩ := pr2
              simp

/-- Counterexample for C4: a two-item `/submit-order` batch whose second
dish has no default cook is rejected with HTTP 400, but the line for the
first item has already been persisted — "no order line is created" fails
for the request as a whole. -/
theorem submit_partial_persist_on_missing_default :
    ((submit_order_api cfgOn 7 storeEmptyDay
        { order_date := 7,
          items := [{ dish_id := "d1", quantity := 10 },
                    { dish_id := "d2", quantity := 5 }] } "t0" .timeoutExc).2
      = .error (.httpError 400
          ("למנה " ++ "Dish Two" ++ " אין טבח ברירת מחדל, יש לבחור טבח ידנית")))
    ∧ ((submit_order_api cfgOn 7 storeEmptyDay
        { order_date := 7,
          items := [{ dish_id := "d1", quantity := 10 },
                    { dish_id := "d2", quantity := 5 }] } "t0" .timeoutExc).1.daily_orders.map
        (fun l => l.dish_id) = ["d1"]) :=
  ⟨rfl, rfl⟩

/-- C4 (amended): a request item naming a dish with no default cook and
carrying no explicit cook id makes resolution fail (MissingDefaultCook)
and the request is rejected with HTTP 400; no line is created for that
item — but in a multi-item submission, lines already created for earlier
items persist (submission is not atomic).  `/add-to-order` requests leave
the store untouched. -/
theorem missing_default_cook_rejected_amended :
    (∀ (s : Store) (req : AddToOrderRequest) (dish : Dish),
      get_dish_by_id s req.dish_id = some dish →
      truthy req.assigned_cook_id = false →
      truthy dish.default_cook_id = false →
      add_to_order s req
        = (s, .error (.httpError 400 ("למנה " ++ dish.name ++ " אין טבח ברירת מחדל"))))
    ∧ (∀ (cfg : ClientConfig) (s s1 : Store) (o : OrderCreate) (now : String)
        (a : AttemptResult) (front : List OrderItemCreate) (bad : OrderItemCreate)
        (rest : List OrderItemCreate) (dish : Dish) (ls : List OrderLine)
        (es : List ExternalOrderItem),
      o.items = front ++ bad :: rest →
      processItems o.order_date s front = (s1, .ok (ls, es)) →
      get_dish_by_id s1 bad.dish_id = some dish →
      bad.assigned_cook_id = none →
      truthy dish.default_cook_id = false →
      submit_order cfg s o now a
        = (s1, .error (.httpError 400
            ("למנה " ++ dish.name ++ " אין טבח ברירת מחדל, יש לבחור טבח ידנית")))
      ∧ s1.daily_orders = s.daily_orders ++ ls
      ∧ ls.length = front.length) := by
  constructor
  · intro s req dish hdish hexp hdef
    simp [add_to_order, hdish, hexp, hdef]
  · intro cfg s s1 o now a front bad rest dish ls es hitems hfront hdish hnoexp hnodef
    have hbad : processItems o.order_date s1 (bad :: rest)
        = (s1, .error (.httpError 400
            ("למנה " ++ dish.name ++ " אין טבח ברירת מחדל, יש לבחור טבח ידנית"))) := by
      rw [processItems]
      simp [hdish, resolveSubmitCook, hnoexp, hnodef]
    have hall := processItems_append_ok o.order_date front (bad :: rest) s s1 ls es hfront
    rw [hbad] at hall
    simp only at hall
    obtain ⟨h1, h2, _⟩ := processItems_ok o.order_date front s s1 ls es hfront
    refine ⟨?_, h2, h1⟩
    rw [← hitems] at hall
    simp [submit_order, hall]

/-- Witness for the amended C4: dish d2 has no default cook; both paths
reject with 400, and in the submit case the first item's line persists. -/
theorem missing_default_cook_rejected_amended_witness :
    (add_to_order storeEmptyDay { order_date := 7, dish_id := "d2", quantity := 5 }
      = (storeEmptyDay,
         .error (.httpError 400 ("למנה " ++ "Dish Two" ++ " אין טבח ברירת מחדל"))))
    ∧ ((submit_order cfgOn storeEmptyDay
        { order_date := 7,
          items := [{ dish_id := "d1", quantity := 10 },
                    { dish_id := "d2", quantity := 5 }] } "t0" .timeoutExc).2
      = .error (.httpError 400
          ("למנה " ++ "Dish Two" ++ " אין טבח ברירת מחדל, יש לבחור טבח ידנית"))) := by
  constructor
  · exact missing_default_cook_rejected_amended.1 storeEmptyDay
      { order_date := 7, dish_id := "d2", quantity := 5 } dishNoDefault rfl rfl rfl
  · have h := missing_default_cook_rejected_amended.2 cfgOn storeEmptyDay
      { cooks := [cookOne, cookTwo], dishes := [dishWithDefault, dishNoDefault],
        daily_orders := [{ id := 0, order_date := 7, dish_id := "d1",
                           assigned_cook_id := "c1", quantity := 10,
                           status := "pending", notes := none }],
        sync_log := [], next_id := 1 }
      { order_date := 7,
        items := [{ dish_id := "d1", quantity := 10 },
                  { dish_id := "d2", quantity := 5 }] }
      "t0" .timeoutExc
      [{ dish_id := "d1", quantity := 10 }] { dish_id := "d2", quantity := 5 } []
      dishNoDefault
      [{ id := 0, order_date := 7, dish_id := "d1", assigned_cook_id := "c1",
         quantity := 10, status := "pending", notes := none }]
      [{ dish_name := "Dish One", quantity := 10, cook_name := "Cook One",
         preparation_time := none, notes := none }]
      rfl rfl rfl rfl rfl
    rw [h.1]
    rfl

/-- Counterexample for C7: the `PUT /order-item` handler applies a
quantity of 501 — outside `[1, 500]` — to a stored line with no bound
check, and the `/add-to-order` validation accepts an order date (day 3)
that lies strictly before a later "today" (day 5), persisting a line for
the past date: the claimed invariant fails on both update and add-to-order
paths. -/
theorem unvalidated_update_and_past_date :
    ((update_item storePending 0 (some 501) none none).1.daily_orders.map
        (fun l => l.quantity) = [501])
    ∧ ¬((501 : Int) ≤ 500)
    ∧ (({ order_date := 3, dish_id := "d1", quantity := 10 } : AddToOrderRequest).valid = true)
    ∧ ((3 : Nat) < 5)
    ∧ ((add_to_order_api storeEmptyDay
          { order_date := 3, dish_id := "d1", quantity := 10 }).1.daily_orders.map
        (fun l => l.order_date) = [3]) :=
  ⟨rfl, by decide, by decide, by decide, rfl⟩

/-- C7 (amended): the `[1, 500]` quantity bound and the not-in-the-past
date rule are enforced only where the pydantic models check them:
`/submit-order` (OrderCreate) enforces both before anything is persisted,
`/add-to-order` (AddToOrderRequest) enforces the quantity bound but never
inspects the date, and the update handler applies any quantity verbatim —
updates can move a stored quantity outside `[1, 500]`. -/
theorem validation_bounds_amended :
    (∀ (today : Nat) (o : OrderCreate), o.valid today = true →
      today ≤ o.order_date ∧ ∀ i ∈ o.items, 1 ≤ i.quantity ∧ i.quantity ≤ 500)
    ∧ (∀ (cfg : ClientConfig) (today : Nat) (s : Store) (o : OrderCreate)
        (now : String) (a : AttemptResult), o.valid today = false →
      submit_order_api cfg today s o now a
        = (s, .error (.httpError 422 "Unprocessable Entity")))
    ∧ (∀ r : AddToOrderRequest, r.valid = true → 1 ≤ r.quantity ∧ r.quantity ≤ 500)
    ∧ (∀ (s : Store) (r : AddToOrderRequest), r.valid = false →
      add_to_order_api s r = (s, .error (.httpError 422 "Unprocessable Entity")))
    ∧ (∀ (s : Store) (i : Nat) (q : Int),
      (update_item s i (some q) none none).1.daily_orders
        = s.daily_orders.map
            (fun l => if l.id == i then { l with quantity := q } else l)) := by
  refine ⟨?_, ?_, ?_, ?_, ?_⟩
  · intro today o hv
    simp only [OrderCreate.valid, Bool.and_eq_true, List.all_eq_true,
      decide_eq_true_eq] at hv
    refine ⟨hv.1.2, fun i hi => ?_⟩
    have hq := hv.2 i hi
    simp only [OrderItemCreate.valid, Bool.and_eq_true, decide_eq_true_eq] at hq
    exact ⟨hq.1.1, hq.1.2⟩
  · intro cfg today s o now a hv
    simp [submit_order_api, hv]
  · intro r hv
    simp only [AddToOrderRequest.valid, Bool.and_eq_true, decide_eq_true_eq] at hv
    exact ⟨hv.1.1, hv.1.2⟩
  · intro s r hv
    simp [add_to_order_api, hv]
  · intro s i q
    have h1 : (update_item s i (some q) none none).1
        = (update_order_item s i { quantity := some q }).1 := by
      simp only [update_item, truthy, Option.isNone_some, Bool.false_and,
        Bool.not_false, Bool.false_eq_true, if_false, Option.map_none']
      rcases update_order_item s i { quantity := some q } with ⟨s2, r⟩
      cases r <;> rfl
    rw [h1]
    simp only [update_order_item, applyUpdate, Option.getD_some, Option.getD_none]

/-- Witness for the amended C7: a valid one-item order for today, its
rejection when "today" moves past the order date, and a concrete update. -/
theorem validation_bounds_amended_witness :
    (7 ≤ 7 ∧ ∀ i ∈ [({ dish_id := "d1", quantity := 10 } : OrderItemCreate)],
      1 ≤ i.quantity ∧ i.quantity ≤ 500)
    ∧ (submit_order_api cfgOn 8 storeEmptyDay
        { order_date := 7, items := [{ dish_id := "d1", quantity := 10 }] } "t0" .timeoutExc
      = (storeEmptyDay, .error (.httpError 422 "Unprocessable Entity")))
    ∧ ((update_item storePending 0 (some 7) none none).1.daily_orders
        = storePending.daily_orders.map
            (fun l => if l.id == 0 then { l with quantity := 7 } else l)) := by
  refine ⟨?_, ?_, ?_⟩
  · have h := validation_bounds_amended.1 7
      { order_date := 7, items := [{ dish_id := "d1", quantity := 10 }] } (by decide)
    exact ⟨h.1, fun i hi => h.2 i hi⟩
  · exact validation_bounds_amended.2.1 cfgOn 8 storeEmptyDay
      { order_date := 7, items := [{ dish_id := "d1", quantity := 10 }] } "t0"
      .timeoutExc (by decide)
  · exact validation_bounds_amended.2.2.2.2 storePending 0 7

end PicnicKitchen
